import Mathlib

/-!
Verification of the pyswmm `nodes` module (`pyswmm/nodes.py`): the `Nodes`
collection facade, the `Node` entity view with its `Outfall`/`Storage`
subtypes, and the `Opening` sub-resource factory.

The simulation engine (`model._model`, a `PySWMM` instance from
`pyswmm.swmm5`) is an external collaborator of this module: only its narrow
procedural interface is used here, so it is modelled from the spec (§6) as a
state record `Engine` with explicit state passing.  Python attribute access
through the shared `_model` reference is rendered as an explicit `Engine`
argument denoting the engine state current at the moment of the call; writes
return the updated `Engine`.  Engine values (C doubles in the original) pass
through this layer untouched, so they are modelled exactly as `Rat`.
-/

namespace PySwmm

/-- Modelled from the spec: object-type namespaces of the engine.  This
excerpt only touches the node namespace. -/
inductive ObjectType where
  | NODE
  deriving DecidableEq, Repr

/-- Modelled from the spec: the closed enumeration of engine-reported node
kinds (`toolkitapi.NodeType`, referenced by `nodes.py` as
`NodeType.junction/.outfall/.storage/.divider`). -/
inductive NodeTypeKind where
  | junction
  | outfall
  | storage
  | divider
  deriving DecidableEq, Repr

/-- Modelled from the spec: the closed set of node parameter codes
(`toolkitapi.NodeParams`, referenced by `nodes.py`). -/
inductive NodeParamCode where
  | invertElev
  | fullDepth
  | surDepth
  | pondedArea
  | surfaceArea
  | initDepth
  | couplingArea
  | overlandDepth
  deriving DecidableEq, Repr

/-- Modelled from the spec: the closed set of node result codes
(`toolkitapi.NodeResults`, referenced by `nodes.py`). -/
inductive NodeResultCode where
  | totalinflow
  | outflow
  | losses
  | newVolume
  | overflow
  | newDepth
  | newHead
  | newLatFlow
  | overlandInflow
  deriving DecidableEq, Repr

/-- Modelled from the spec: the state of the external simulation engine as
visible through the interface of §6.  `nodeIds` is the engine's node
identifier table in internal index order; `nodeKind` is the declared kind of
each identifier; `nodeParams` the mutable parameter store; `simulationActive`
whether a simulation run is active; `nodeResults` the live result values when
one is; `openings` the sub-resources registered so far, keyed by
(node identifier, sequence number). -/
structure Engine where
  fileLoaded : Bool
  nodeIds : List String
  nodeKind : String → NodeTypeKind
  nodeParams : String → NodeParamCode → Rat
  simulationActive : Bool
  nodeResults : String → NodeResultCode → Rat
  openings : List (String × Nat)

/-- Modelled from the spec: `object_count(object_type)`. -/
def Engine.getProjectSize (e : Engine) : ObjectType → Nat
  | ObjectType.NODE => e.nodeIds.length

/-- Modelled from the spec: `identifier_exists(object_type, id)`, the engine's
identifier-table membership test. -/
def Engine.ObjectIDexist (e : Engine) (_ : ObjectType) (objid : String) : Bool :=
  e.nodeIds.contains objid

/-- Modelled from the spec: `identifier_at(object_type, index)`; only
specified for indices below the object count, so an out-of-range read is an
engine-side failure, rendered as `none`. -/
def Engine.getObjectId (e : Engine) (_ : ObjectType) (index : Nat) : Option String :=
  e.nodeIds[index]?

/-- Modelled from the spec: `identifier_list(object_type)`. -/
def Engine.getObjectIDList (e : Engine) : ObjectType → List String
  | ObjectType.NODE => e.nodeIds

/-- Modelled from the spec: `entity_kind(id)` used for subtype resolution. -/
def Engine.getNodeType (e : Engine) (nodeid : String) : NodeTypeKind :=
  e.nodeKind nodeid

/-- Modelled from the spec: `get_parameter(id, param_code)`, a live read of
engine state. -/
def Engine.getNodeParam (e : Engine) (nodeid : String) (code : NodeParamCode) : Rat :=
  e.nodeParams nodeid code

/-- Modelled from the spec: `set_parameter(id, param_code, value)`, writing
the value into engine state. -/
def Engine.setNodeParam (e : Engine) (nodeid : String) (code : NodeParamCode)
    (value : Rat) : Engine :=
  { e with nodeParams := fun i c =>
      if i = nodeid ∧ c = code then value else e.nodeParams i c }

/-- Modelled from the spec: `get_result(id, result_code)`.  Returns the live
value when a run is active; otherwise returns 0 together with a non-fatal
warning, never failing.  The `Bool` component records whether the engine
issued its warning. -/
def Engine.getNodeResult (e : Engine) (nodeid : String) (code : NodeResultCode) :
    Rat × Bool :=
  if e.simulationActive then (e.nodeResults nodeid code, false) else (0, true)

/-- Modelled from the spec: `create_sub_resource(id, seq, ...)`, registering
an opening inside the engine keyed by (node identifier, sequence number). -/
def Engine.setNodeOpening (e : Engine) (nodeid : String) (idx : Nat)
    (_opening_type : Nat) (_opening_area _opening_length : Rat)
    (_coeff_orifice _coeff_freeweir _coeff_subweir : Rat) : Engine :=
  { e with openings := e.openings ++ [(nodeid, idx)] }

/-- Python exceptions surfaced by this module: `PYSWMMException(msg)` and the
iterator protocol's `StopIteration`. -/
inductive PyErr where
  | pyswmmException (msg : String)
  | stopIteration
  deriving DecidableEq, Repr

/-- The Python runtime class of a node entity view: `Node`, or one of its
subclasses `Outfall` / `Storage` assigned by `Nodes.__getitem__`. -/
inductive NodeViewKind where
  | node
  | outfall
  | storage
  deriving DecidableEq, Repr

/-- A `Node` entity view: the fields stored by `Node.__init__` (`_model`,
`_nodeid`) plus its runtime class, which `Nodes.__getitem__` may rewrite to
`Outfall` or `Storage`.  `model` is the engine state referenced by `_model`
at construction. -/
structure NodeView where
  model : Engine
  nodeid : String
  cls : NodeViewKind

/-- The mutable state of a `Nodes` collection: the iteration cursor
`_cuindex` and the node count `_nNodes` captured at construction.  (The
`_model` reference is rendered as the explicit `Engine` argument of each
operation.) -/
structure NodesState where
  cuindex : Nat
  nNodes : Nat
  deriving DecidableEq, Repr

/-- `Nodes.__init__`: fails when the model file is not loaded; otherwise
stores cursor 0 and the current node count. -/
def Nodes.init (model : Engine) : Except PyErr NodesState :=
  if model.fileLoaded = false then
    Except.error (PyErr.pyswmmException "SWMM Model Not Open")
  else
    Except.ok { cuindex := 0, nNodes := model.getProjectSize ObjectType.NODE }

/-- `Nodes.__len__`: a live engine count. -/
def Nodes.len (e : Engine) : Nat :=
  e.getProjectSize ObjectType.NODE

/-- `Nodes.__contains__`: delegated to the engine's identifier table. -/
def Nodes.contains (e : Engine) (nodeid : String) : Bool :=
  e.ObjectIDexist ObjectType.NODE nodeid

/-- `Node.__init__`: fails when the model is not loaded, or when the
identifier is not in the engine's identifier list; otherwise stores the
(engine handle, identifier) binding with runtime class `Node`. -/
def Node.init (model : Engine) (nodeid : String) : Except PyErr NodeView :=
  if model.fileLoaded = false then
    Except.error (PyErr.pyswmmException "SWMM Model Not Open")
  else if (model.getObjectIDList ObjectType.NODE).contains nodeid = false then
    Except.error (PyErr.pyswmmException "ID Not valid")
  else
    Except.ok { model := model, nodeid := nodeid, cls := NodeViewKind.node }

/-- `Node.nodeid` property. -/
def NodeView.nodeidProp (nd : NodeView) : String :=
  nd.nodeid

/-- `Node.is_outfall`: live kind check against the engine. -/
def Node.is_outfall (e : Engine) (nd : NodeView) : Bool :=
  e.getNodeType nd.nodeid = NodeTypeKind.outfall

/-- `Node.is_storage`: live kind check against the engine. -/
def Node.is_storage (e : Engine) (nd : NodeView) : Bool :=
  e.getNodeType nd.nodeid = NodeTypeKind.storage

/-- `Node.is_junction`: live kind check against the engine. -/
def Node.is_junction (e : Engine) (nd : NodeView) : Bool :=
  e.getNodeType nd.nodeid = NodeTypeKind.junction

/-- `Node.is_divider`: live kind check against the engine. -/
def Node.is_divider (e : Engine) (nd : NodeView) : Bool :=
  e.getNodeType nd.nodeid = NodeTypeKind.divider

/-- `Nodes.__getitem__`: membership check, generic `Node` construction, then
in-place reclassification of `__class__` to `Outfall` or `Storage` according
to the engine-reported kind; raises Not-Found when the identifier does not
exist. -/
def Nodes.getItem (e : Engine) (nodeid : String) : Except PyErr NodeView :=
  if Nodes.contains e nodeid then
    match Node.init e nodeid with
    | Except.error err => Except.error err
    | Except.ok nd =>
      if Node.is_outfall e nd then
        Except.ok { nd with cls := NodeViewKind.outfall }
      else if Node.is_storage e nd then
        Except.ok { nd with cls := NodeViewKind.storage }
      else
        Except.ok nd
  else
    Except.error (PyErr.pyswmmException "Node ID Does not Exist")

/-- `Nodes._nodeid` property: live index-to-identifier read at the current
cursor. -/
def Nodes.nodeidAt (e : Engine) (s : NodesState) : Option String :=
  e.getObjectId ObjectType.NODE s.cuindex

/-- `Nodes.__iter__`: returns the collection itself. -/
def Nodes.iter (s : NodesState) : NodesState :=
  s

/-- `Nodes.__next__`: while the cursor is below the count captured at
construction, re-read the identifier at the cursor from the engine, look it
up, then advance the cursor; otherwise `StopIteration`. -/
def Nodes.next (e : Engine) (s : NodesState) : Except PyErr (NodeView × NodesState) :=
  if s.cuindex < s.nNodes then
    match Nodes.nodeidAt e s with
    | none => Except.error (PyErr.pyswmmException "index out of range")
    | some nid =>
      match Nodes.getItem e nid with
      | Except.error err => Except.error err
      | Except.ok nodeobject =>
        Except.ok (nodeobject, { s with cuindex := s.cuindex + 1 })
  else
    Except.error PyErr.stopIteration

/-- Driving the iterator: repeatedly call `Nodes.next`, feeding each step the
engine state current at that step (`es 0`, `es 1`, ...), collecting the
yielded views until any exception ends the iteration.  `fuel` bounds the
number of `next` calls. -/
def Nodes.collectSeq (es : Nat → Engine) (s : NodesState) : Nat → List NodeView
  | 0 => []
  | fuel + 1 =>
    match Nodes.next (es 0) s with
    | Except.error _ => []
    | Except.ok (nd, s2) => nd :: Nodes.collectSeq (fun k => es (k + 1)) s2 fuel

/-- `Node.invert_elevation` getter. -/
def Node.invert_elevation (e : Engine) (nd : NodeView) : Rat :=
  e.getNodeParam nd.nodeid NodeParamCode.invertElev

/-- `Node.invert_elevation` setter. -/
def Node.set_invert_elevation (e : Engine) (nd : NodeView) (param : Rat) : Engine :=
  e.setNodeParam nd.nodeid NodeParamCode.invertElev param

/-- `Node.full_depth` getter. -/
def Node.full_depth (e : Engine) (nd : NodeView) : Rat :=
  e.getNodeParam nd.nodeid NodeParamCode.fullDepth

/-- `Node.full_depth` setter. -/
def Node.set_full_depth (e : Engine) (nd : NodeView) (param : Rat) : Engine :=
  e.setNodeParam nd.nodeid NodeParamCode.fullDepth param

/-- `Node.surcharge_depth` getter. -/
def Node.surcharge_depth (e : Engine) (nd : NodeView) : Rat :=
  e.getNodeParam nd.nodeid NodeParamCode.surDepth

/-- `Node.surcharge_depth` setter. -/
def Node.set_surcharge_depth (e : Engine) (nd : NodeView) (param : Rat) : Engine :=
  e.setNodeParam nd.nodeid NodeParamCode.surDepth param

/-- `Node.ponding_area` getter. -/
def Node.ponding_area (e : Engine) (nd : NodeView) : Rat :=
  e.getNodeParam nd.nodeid NodeParamCode.pondedArea

/-- `Node.ponding_area` setter. -/
def Node.set_ponding_area (e : Engine) (nd : NodeView) (param : Rat) : Engine :=
  e.setNodeParam nd.nodeid NodeParamCode.pondedArea param

/-- `Node.surface_area` getter. -/
def Node.surface_area (e : Engine) (nd : NodeView) : Rat :=
  e.getNodeParam nd.nodeid NodeParamCode.surfaceArea

/-- `Node.surface_area` setter. -/
def Node.set_surface_area (e : Engine) (nd : NodeView) (param : Rat) : Engine :=
  e.setNodeParam nd.nodeid NodeParamCode.surfaceArea param

/-- `Node.initial_depth` getter. -/
def Node.initial_depth (e : Engine) (nd : NodeView) : Rat :=
  e.getNodeParam nd.nodeid NodeParamCode.initDepth

/-- `Node.initial_depth` setter. -/
def Node.set_initial_depth (e : Engine) (nd : NodeView) (param : Rat) : Engine :=
  e.setNodeParam nd.nodeid NodeParamCode.initDepth param

/-- `Node.coupling_area` getter. -/
def Node.coupling_area (e : Engine) (nd : NodeView) : Rat :=
  e.getNodeParam nd.nodeid NodeParamCode.couplingArea

/-- `Node.coupling_area` setter. -/
def Node.set_coupling_area (e : Engine) (nd : NodeView) (param : Rat) : Engine :=
  e.setNodeParam nd.nodeid NodeParamCode.couplingArea param

/-- `Node.overland_depth` getter. -/
def Node.overland_depth (e : Engine) (nd : NodeView) : Rat :=
  e.getNodeParam nd.nodeid NodeParamCode.overlandDepth

/-- `Node.overland_depth` setter. -/
def Node.set_overland_depth (e : Engine) (nd : NodeView) (param : Rat) : Engine :=
  e.setNodeParam nd.nodeid NodeParamCode.overlandDepth param

/-- Dispatch a parameter read to the `Node` property of that code. -/
def Node.getParamByCode (e : Engine) (nd : NodeView) : NodeParamCode → Rat
  | NodeParamCode.invertElev => Node.invert_elevation e nd
  | NodeParamCode.fullDepth => Node.full_depth e nd
  | NodeParamCode.surDepth => Node.surcharge_depth e nd
  | NodeParamCode.pondedArea => Node.ponding_area e nd
  | NodeParamCode.surfaceArea => Node.surface_area e nd
  | NodeParamCode.initDepth => Node.initial_depth e nd
  | NodeParamCode.couplingArea => Node.coupling_area e nd
  | NodeParamCode.overlandDepth => Node.overland_depth e nd

/-- Dispatch a parameter write to the `Node` property setter of that code. -/
def Node.setParamByCode (e : Engine) (nd : NodeView) (v : Rat) : NodeParamCode → Engine
  | NodeParamCode.invertElev => Node.set_invert_elevation e nd v
  | NodeParamCode.fullDepth => Node.set_full_depth e nd v
  | NodeParamCode.surDepth => Node.set_surcharge_depth e nd v
  | NodeParamCode.pondedArea => Node.set_ponding_area e nd v
  | NodeParamCode.surfaceArea => Node.set_surface_area e nd v
  | NodeParamCode.initDepth => Node.set_initial_depth e nd v
  | NodeParamCode.couplingArea => Node.set_coupling_area e nd v
  | NodeParamCode.overlandDepth => Node.set_overland_depth e nd v

/-- `Node.total_inflow` result property (value, warning-issued flag). -/
def Node.total_inflow (e : Engine) (nd : NodeView) : Rat × Bool :=
  e.getNodeResult nd.nodeid NodeResultCode.totalinflow

/-- `Node.total_outflow` result property. -/
def Node.total_outflow (e : Engine) (nd : NodeView) : Rat × Bool :=
  e.getNodeResult nd.nodeid NodeResultCode.outflow

/-- `Node.losses` result property. -/
def Node.losses (e : Engine) (nd : NodeView) : Rat × Bool :=
  e.getNodeResult nd.nodeid NodeResultCode.losses

/-- `Node.volume` result property. -/
def Node.volume (e : Engine) (nd : NodeView) : Rat × Bool :=
  e.getNodeResult nd.nodeid NodeResultCode.newVolume

/-- `Node.flooding` result property. -/
def Node.flooding (e : Engine) (nd : NodeView) : Rat × Bool :=
  e.getNodeResult nd.nodeid NodeResultCode.overflow

/-- `Node.depth` result property. -/
def Node.depth (e : Engine) (nd : NodeView) : Rat × Bool :=
  e.getNodeResult nd.nodeid NodeResultCode.newDepth

/-- `Node.head` result property. -/
def Node.head (e : Engine) (nd : NodeView) : Rat × Bool :=
  e.getNodeResult nd.nodeid NodeResultCode.newHead

/-- `Node.lateral_inflow` result property. -/
def Node.lateral_inflow (e : Engine) (nd : NodeView) : Rat × Bool :=
  e.getNodeResult nd.nodeid NodeResultCode.newLatFlow

/-- `Node.coupling_inflow` result property. -/
def Node.coupling_inflow (e : Engine) (nd : NodeView) : Rat × Bool :=
  e.getNodeResult nd.nodeid NodeResultCode.overlandInflow

/-- An `Opening` sub-resource view: the fields stored by `Opening.__init__`
(the owning node's identifier and the allocated sequence number `_id`). -/
structure OpeningView where
  nodeid : String
  seqid : Nat
  deriving DecidableEq, Repr

/-- `Opening.newid = itertools.count()`: the initial value of the class-level
(process-global) sequence counter.  The counter itself is threaded as an
explicit `Nat` through every construction. -/
def Opening.newid : Nat :=
  0

/-- `Opening.__init__`: record the owning node's identifier, draw the next
sequence number from the class-level counter (`next(self.__class__.newid)`
returns the current counter value and advances it), and register the opening
inside the engine.  Returns the view, the advanced counter, and the updated
engine. -/
def Opening.init (node_object : NodeView) (newid : Nat) (e : Engine)
    (opening_type : Nat) (opening_area opening_length : Rat)
    (coeff_orifice coeff_freeweir coeff_subweir : Rat) :
    OpeningView × Nat × Engine :=
  let nodeid := node_object.nodeid
  let oid := newid
  let e2 := e.setNodeOpening nodeid oid opening_type opening_area opening_length
    coeff_orifice coeff_freeweir coeff_subweir
  ({ nodeid := nodeid, seqid := oid }, newid + 1, e2)

/-- `Node.create_opening`: factory delegating to `Opening.__init__`. -/
def Node.create_opening (nd : NodeView) (newid : Nat) (e : Engine)
    (opening_type : Nat) (opening_area opening_length : Rat)
    (coeff_orifice coeff_freeweir coeff_subweir : Rat) :
    OpeningView × Nat × Engine :=
  Opening.init nd newid e opening_type opening_area opening_length
    coeff_orifice coeff_freeweir coeff_subweir

/-- Create one opening per listed node view, in order, threading the
class-level counter and the engine through; physical parameters fixed, since
sequence allocation does not depend on them. -/
def createOpenings (e : Engine) (nds : List NodeView) (newid : Nat) :
    List OpeningView × Nat × Engine :=
  match nds with
  | [] => ([], newid, e)
  | nd :: rest =>
    let r1 := Node.create_opening nd newid e 0 1 1 1 1 1
    let r2 := createOpenings r1.2.2 rest r1.2.1
    (r1.1 :: r2.1, r2.2.1, r2.2.2)

/-- The attribute names defined on the Python class `Node` (methods and
properties, as written in `nodes.py`). -/
def baseNodeMethodNames : List String :=
  ["nodeid", "is_junction", "is_outfall", "is_storage", "is_divider",
   "invert_elevation", "full_depth", "surcharge_depth", "ponding_area",
   "surface_area", "initial_depth", "total_inflow", "total_outflow",
   "losses", "volume", "flooding", "depth", "head", "lateral_inflow",
   "generated_inflow", "statistics", "is_coupled", "coupling_inflow",
   "coupling_area", "overland_depth", "create_opening",
   "number_of_openings", "openings_indices"]

/-- The attribute names defined only on the Python subclass `Outfall`. -/
def outfallMethodNames : List String :=
  ["outfall_statistics", "cumulative_inflow", "outfall_stage"]

/-- The attribute names defined only on the Python subclass `Storage`. -/
def storageMethodNames : List String :=
  ["storage_statistics"]

/-- Python attribute lookup on a view: an attribute resolves iff it is
defined on `Node`, or on the subclass the view's runtime class was
reclassified to. -/
def NodeView.respondsTo (nd : NodeView) (m : String) : Bool :=
  baseNodeMethodNames.contains m
  || (if nd.cls = NodeViewKind.outfall then outfallMethodNames.contains m else false)
  || (if nd.cls = NodeViewKind.storage then storageMethodNames.contains m else false)

/-- A loaded four-node engine used to instantiate the theorems: nodes
`J0 J1 J2 J3` with `J2` an outfall and `J3` a storage node, no simulation
run active. -/
def testEngine : Engine :=
  { fileLoaded := true
    nodeIds := ["J0", "J1", "J2", "J3"]
    nodeKind := fun nodeid =>
      if nodeid = "J2" then NodeTypeKind.outfall
      else if nodeid = "J3" then NodeTypeKind.storage
      else NodeTypeKind.junction
    nodeParams := fun _ _ => 0
    simulationActive := false
    nodeResults := fun _ _ => 0
    openings := [] }

/-- An engine whose model file is not loaded. -/
def unloadedEngine : Engine :=
  { testEngine with fileLoaded := false }

/-- The constant engine sequence feeding `testEngine` to every iteration
step. -/
def constTestEngine : Nat → Engine :=
  fun _ => testEngine

/-- A generic `Node` view on `J1` of the test engine. -/
def testJ1 : NodeView :=
  { model := testEngine, nodeid := "J1", cls := NodeViewKind.node }

/-- A generic `Node` view on `J2` of the test engine. -/
def testJ2 : NodeView :=
  { model := testEngine, nodeid := "J2", cls := NodeViewKind.node }

/-- The runtime class `Nodes.__getitem__` leaves a freshly constructed view
with, as a function of the engine-reported kind (derived, for stating the
lookup equations). -/
def reclassKind (e : Engine) (nodeid : String) : NodeViewKind :=
  if e.nodeKind nodeid = NodeTypeKind.outfall then NodeViewKind.outfall
  else if e.nodeKind nodeid = NodeTypeKind.storage then NodeViewKind.storage
  else NodeViewKind.node

theorem Node.init_ok (e : Engine) (nodeid : String) (h1 : e.fileLoaded = true)
    (h2 : nodeid ∈ e.nodeIds) :
    Node.init e nodeid =
      Except.ok { model := e, nodeid := nodeid, cls := NodeViewKind.node } := by
  simp [Node.init, Engine.getObjectIDList, h1, h2]

theorem Nodes.getItem_ok (e : Engine) (nodeid : String) (h1 : e.fileLoaded = true)
    (h2 : nodeid ∈ e.nodeIds) :
    Nodes.getItem e nodeid =
      Except.ok { model := e, nodeid := nodeid, cls := reclassKind e nodeid } := by
  have hinit := Node.init_ok e nodeid h1 h2
  unfold Nodes.getItem
  rw [hinit]
  simp only [Nodes.contains, Engine.ObjectIDexist]
  rw [if_pos (by simpa using h2)]
  unfold Node.is_outfall Node.is_storage Engine.getNodeType reclassKind
  by_cases ho : e.nodeKind nodeid = NodeTypeKind.outfall
  · simp [ho]
  · by_cases hs : e.nodeKind nodeid = NodeTypeKind.storage
    · simp [ho, hs]
    · simp [ho, hs]

theorem Nodes.getItem_ok_inv (e : Engine) (nid : String) (nd : NodeView)
    (h : Nodes.getItem e nid = Except.ok nd) :
    nd.nodeid = nid ∧ nd.model = e := by
  by_cases hc : Nodes.contains e nid = true
  · by_cases hl : e.fileLoaded = true
    · have hm : nid ∈ e.nodeIds := by
        simpa [Nodes.contains, Engine.ObjectIDexist] using hc
      rw [Nodes.getItem_ok e nid hl hm] at h
      have := Except.ok.inj h
      rw [← this]
      exact ⟨rfl, rfl⟩
    · have hl2 : e.fileLoaded = false := by
        revert hl
        cases e.fileLoaded <;> simp
      simp [Nodes.getItem, hc, Node.init, hl2] at h
  · simp [Nodes.getItem, hc] at h

theorem Nodes.next_ok_inv (e : Engine) (s : NodesState) (nd : NodeView)
    (s2 : NodesState) (h : Nodes.next e s = Except.ok (nd, s2)) :
    s.cuindex < s.nNodes ∧ s2.cuindex = s.cuindex + 1 ∧ s2.nNodes = s.nNodes ∧
      e.nodeIds[s.cuindex]? = some nd.nodeid := by
  by_cases hlt : s.cuindex < s.nNodes
  · cases hid : e.nodeIds[s.cuindex]? with
    | none =>
      simp [Nodes.next, Nodes.nodeidAt, Engine.getObjectId, hlt, hid] at h
    | some nid =>
      cases hitem : Nodes.getItem e nid with
      | error err =>
        simp [Nodes.next, Nodes.nodeidAt, Engine.getObjectId, hlt, hid, hitem] at h
      | ok nodeobject =>
        have h2 : (Except.ok
              (nodeobject, ({ s with cuindex := s.cuindex + 1 } : NodesState)) :
              Except PyErr (NodeView × NodesState)) =
            Except.ok (nd, s2) := by
          rw [← h]
          simp [Nodes.next, Nodes.nodeidAt, Engine.getObjectId, hlt, hid, hitem]
        have hp := Except.ok.inj h2
        have hnd : nodeobject = nd := congrArg Prod.fst hp
        have hs2 : ({ s with cuindex := s.cuindex + 1 } : NodesState) = s2 :=
          congrArg Prod.snd hp
        have hnid := (Nodes.getItem_ok_inv e nid nodeobject hitem).1
        refine ⟨hlt, ?_, ?_, ?_⟩
        · rw [← hs2]
        · rw [← hs2]
        · rw [← hnd, hnid]
  · simp [Nodes.next, hlt] at h

theorem Nodes.next_stop (e : Engine) (s : NodesState) (h : s.nNodes ≤ s.cuindex) :
    Nodes.next e s = Except.error PyErr.stopIteration := by
  unfold Nodes.next
  rw [if_neg (by omega)]

theorem Nodes.collectSeq_const_map (e : Engine) (h1 : e.fileLoaded = true) :
    ∀ (fuel : Nat) (s : NodesState), s.nNodes = e.nodeIds.length →
      e.nodeIds.length - s.cuindex ≤ fuel →
      (Nodes.collectSeq (fun _ => e) s fuel).map NodeView.nodeid =
        e.nodeIds.drop s.cuindex := by
  intro fuel
  induction fuel with
  | zero =>
    intro s hn hf
    have hge : e.nodeIds.length ≤ s.cuindex := by omega
    simp [Nodes.collectSeq, List.drop_eq_nil_of_le hge]
  | succ fuel ih =>
    intro s hn hf
    by_cases hlt : s.cuindex < s.nNodes
    · have hc : s.cuindex < e.nodeIds.length := by omega
      have hsome : e.nodeIds[s.cuindex]? = some (e.nodeIds[s.cuindex]) :=
        List.getElem?_eq_getElem hc
      have hmem : e.nodeIds[s.cuindex] ∈ e.nodeIds := List.getElem_mem hc
      have hitem := Nodes.getItem_ok e (e.nodeIds[s.cuindex]) h1 hmem
      have hnext : Nodes.next e s = Except.ok
          ({ model := e, nodeid := e.nodeIds[s.cuindex],
             cls := reclassKind e (e.nodeIds[s.cuindex]) },
           { s with cuindex := s.cuindex + 1 }) := by
        unfold Nodes.next Nodes.nodeidAt Engine.getObjectId
        rw [if_pos hlt, hsome]
        simp [hitem]
      have hrec := ih { cuindex := s.cuindex + 1, nNodes := s.nNodes }
        (by simpa using hn) (by simp; omega)
      simp only [Nodes.collectSeq, hnext, List.map_cons]
      rw [List.drop_eq_getElem_cons hc]
      rw [show (fun (k : Nat) => (fun (_ : Nat) => e) (k + 1)) = fun _ => e from rfl]
      rw [hrec]
    · have hge : e.nodeIds.length ≤ s.cuindex := by omega
      have hnext := Nodes.next_stop e s (by omega)
      simp [Nodes.collectSeq, hnext, List.drop_eq_nil_of_le hge]

theorem Nodes.collectSeq_length_le :
    ∀ (fuel : Nat) (es : Nat → Engine) (s : NodesState),
      (Nodes.collectSeq es s fuel).length ≤ s.nNodes - s.cuindex := by
  intro fuel
  induction fuel with
  | zero => intro es s; simp [Nodes.collectSeq]
  | succ fuel ih =>
    intro es s
    cases hnext : Nodes.next (es 0) s with
    | error err => simp [Nodes.collectSeq, hnext]
    | ok p =>
      obtain ⟨nd, s2⟩ := p
      have hinv := Nodes.next_ok_inv (es 0) s nd s2 hnext
      have hrec := ih (fun k => es (k + 1)) s2
      simp only [Nodes.collectSeq, hnext, List.length_cons]
      omega

/-- C1: on a loaded model, whenever the membership test `Nodes.__contains__`
returns true for an identifier, indexed lookup `Nodes.__getitem__` succeeds
and the returned entity view's `nodeid` property equals that identifier. -/
theorem claim1_contains_implies_getitem (e : Engine) (nodeid : String)
    (h1 : e.fileLoaded = true) (h2 : Nodes.contains e nodeid = true) :
    ∃ nd : NodeView, Nodes.getItem e nodeid = Except.ok nd ∧
      nd.nodeidProp = nodeid := by
  have hm : nodeid ∈ e.nodeIds := by
    simpa [Nodes.contains, Engine.ObjectIDexist] using h2
  exact ⟨_, Nodes.getItem_ok e nodeid h1 hm, rfl⟩

/-- Witness for C1: lookup of `J1` in the four-node test engine. -/
theorem claim1_witness :
    ∃ nd : NodeView, Nodes.getItem testEngine "J1" = Except.ok nd ∧
      nd.nodeidProp = "J1" :=
  claim1_contains_implies_getitem testEngine "J1" rfl (by decide)

/-- C2: for an identifier absent from the engine's node namespace, the
membership test returns false and indexed lookup raises the Not-Found
`PYSWMMException`, constructing no entity view. -/
theorem claim2_missing_id_not_found (e : Engine) (nodeid : String)
    (h : nodeid ∉ e.nodeIds) :
    Nodes.contains e nodeid = false ∧
      Nodes.getItem e nodeid =
        Except.error (PyErr.pyswmmException "Node ID Does not Exist") := by
  have hc : Nodes.contains e nodeid = false := by
    simp [Nodes.contains, Engine.ObjectIDexist, h]
  exact ⟨hc, by simp [Nodes.getItem, hc]⟩

/-- Witness for C2: the absent identifier `J9` on the test engine. -/
theorem claim2_witness :
    Nodes.contains testEngine "J9" = false ∧
      Nodes.getItem testEngine "J9" =
        Except.error (PyErr.pyswmmException "Node ID Does not Exist") :=
  claim2_missing_id_not_found testEngine "J9" (by decide)

/-- C8: `Nodes.__init__` on an unloaded engine handle fails with the
configuration error, and `Node.__init__` on a loaded handle with an
identifier unknown to the engine fails with the validation error; in both
cases an exception, not a usable object, is returned. -/
theorem claim8_construction_errors (e : Engine) (nodeid : String) :
    (e.fileLoaded = false →
      Nodes.init e =
        Except.error (PyErr.pyswmmException "SWMM Model Not Open")) ∧
    (e.fileLoaded = true → nodeid ∉ e.nodeIds →
      Node.init e nodeid =
        Except.error (PyErr.pyswmmException "ID Not valid")) := by
  constructor
  · intro h
    simp [Nodes.init, h]
  · intro h1 h2
    simp [Node.init, h1, Engine.getObjectIDList, h2]

/-- Witness for C8: the unloaded engine, and the unknown identifier `J9`. -/
theorem claim8_witness :
    Nodes.init unloadedEngine =
        Except.error (PyErr.pyswmmException "SWMM Model Not Open") ∧
      Node.init testEngine "J9" =
        Except.error (PyErr.pyswmmException "ID Not valid") :=
  ⟨(claim8_construction_errors unloadedEngine "J9").1 rfl,
   (claim8_construction_errors testEngine "J9").2 rfl (by decide)⟩

/-- C9: the reclassification step of `Nodes.__getitem__` returns exactly the
view built by `Node.__init__` with at most its runtime class changed: the
engine-handle field and the identifier field of the result are those
established at construction. -/
theorem claim9_reclass_preserves_binding (e : Engine) (nodeid : String)
    (h1 : e.fileLoaded = true) (h2 : Nodes.contains e nodeid = true) :
    ∃ nd nd2 : NodeView, Node.init e nodeid = Except.ok nd ∧
      Nodes.getItem e nodeid = Except.ok nd2 ∧
      nd2.model = nd.model ∧ nd2.nodeid = nd.nodeid := by
  have hm : nodeid ∈ e.nodeIds := by
    simpa [Nodes.contains, Engine.ObjectIDexist] using h2
  exact ⟨_, _, Node.init_ok e nodeid h1 hm, Nodes.getItem_ok e nodeid h1 hm,
    rfl, rfl⟩

/-- Witness for C9: lookup of the outfall node `J2`, which is reclassified. -/
theorem claim9_witness :
    ∃ nd nd2 : NodeView, Node.init testEngine "J2" = Except.ok nd ∧
      Nodes.getItem testEngine "J2" = Except.ok nd2 ∧
      nd2.model = nd.model ∧ nd2.nodeid = nd.nodeid :=
  claim9_reclass_preserves_binding testEngine "J2" rfl (by decide)

/-- C3: iterating a `Nodes` collection over an engine holding N nodes yields
exactly N entity views, the i-th with identifier `getObjectId(NODE, i)`, in
index order — any fuel of at least N `__next__` calls yields exactly the
engine's identifier table, after which iteration terminates; and every
successful `__next__` re-reads the identifier at the cursor from the engine
state current at that call, not from a snapshot taken at iterator
creation. -/
theorem claim3_iteration_order (e : Engine) (s : NodesState) (fuel : Nat)
    (h1 : e.fileLoaded = true) (h2 : Nodes.init e = Except.ok s)
    (h3 : e.nodeIds.length ≤ fuel) :
    (Nodes.collectSeq (fun _ => e) s fuel).map NodeView.nodeid = e.nodeIds ∧
    (∀ (e2 : Engine) (s1 s2 : NodesState) (nd : NodeView),
      Nodes.next e2 s1 = Except.ok (nd, s2) →
      e2.nodeIds[s1.cuindex]? = some nd.nodeid) := by
  have hs : s = { cuindex := 0, nNodes := e.nodeIds.length } := by
    have hh : (Except.ok { cuindex := 0, nNodes := e.nodeIds.length } :
        Except PyErr NodesState) = Except.ok s := by
      rw [← h2]
      simp [Nodes.init, h1, Engine.getProjectSize]
    exact (Except.ok.inj hh).symm
  constructor
  · subst hs
    have hmap := Nodes.collectSeq_const_map e h1 fuel
      { cuindex := 0, nNodes := e.nodeIds.length } rfl (by simpa using h3)
    simpa using hmap
  · intro e2 s1 s2 nd h
    exact (Nodes.next_ok_inv e2 s1 nd s2 h).2.2.2

/-- Witness for C3: iterating the four-node test engine yields
`[J0, J1, J2, J3]`. -/
theorem claim3_witness :
    (Nodes.collectSeq constTestEngine { cuindex := 0, nNodes := 4 } 4).map
        NodeView.nodeid = testEngine.nodeIds :=
  (claim3_iteration_order testEngine { cuindex := 0, nNodes := 4 } 4 rfl
    rfl (by decide)).1

/-- C10: a `Nodes` instance is its own one-shot iterator: `__iter__` returns
the instance itself; its iteration bound `_nNodes` is the count captured at
construction (equal to `len` at that moment, while `len` stays a live engine
read); over any sequence of live engine states it yields at most that
captured count of views in total; once the cursor has reached the captured
count every further `__next__` raises `StopIteration` at once, whatever the
live engine holds; and a successful `__next__` only advances the cursor by
one, never resetting it or the captured bound. -/
theorem claim10_one_shot_iterator (e : Engine) (s : NodesState)
    (h : Nodes.init e = Except.ok s) :
    Nodes.iter s = s ∧
    s.nNodes = Nodes.len e ∧
    (∀ (es : Nat → Engine) (fuel : Nat),
      (Nodes.collectSeq es s fuel).length ≤ s.nNodes) ∧
    (∀ (e2 : Engine) (s1 : NodesState), s1.nNodes ≤ s1.cuindex →
      Nodes.next e2 s1 = Except.error PyErr.stopIteration) ∧
    (∀ (e2 : Engine) (s1 s2 : NodesState) (nd : NodeView),
      Nodes.next e2 s1 = Except.ok (nd, s2) →
      s2.cuindex = s1.cuindex + 1 ∧ s2.nNodes = s1.nNodes) := by
  have hl : e.fileLoaded = true := by
    by_cases hl : e.fileLoaded = true
    · exact hl
    · have hl2 : e.fileLoaded = false := by
        revert hl
        cases e.fileLoaded <;> simp
      simp [Nodes.init, hl2] at h
  have hs : s = { cuindex := 0, nNodes := e.nodeIds.length } := by
    have hh : (Except.ok { cuindex := 0, nNodes := e.nodeIds.length } :
        Except PyErr NodesState) = Except.ok s := by
      rw [← h]
      simp [Nodes.init, hl, Engine.getProjectSize]
    exact (Except.ok.inj hh).symm
  refine ⟨rfl, ?_, ?_, ?_, ?_⟩
  · rw [hs]
    simp [Nodes.len, Engine.getProjectSize]
  · intro es fuel
    have := Nodes.collectSeq_length_le fuel es s
    omega
  · intro e2 s1 hge
    exact Nodes.next_stop e2 s1 hge
  · intro e2 s1 s2 nd hnext
    have hinv := Nodes.next_ok_inv e2 s1 nd s2 hnext
    exact ⟨hinv.2.1, hinv.2.2.1⟩

/-- Witness for C10 at the test engine's freshly constructed collection
state. -/
theorem claim10_witness :
    Nodes.iter { cuindex := 0, nNodes := 4 } =
        ({ cuindex := 0, nNodes := 4 } : NodesState) ∧
      ({ cuindex := 0, nNodes := 4 } : NodesState).nNodes =
        Nodes.len testEngine :=
  ⟨(claim10_one_shot_iterator testEngine { cuindex := 0, nNodes := 4 } rfl).1,
   (claim10_one_shot_iterator testEngine { cuindex := 0, nNodes := 4 } rfl).2.1⟩

/-- C4: indexed lookup of an identifier whose engine-reported kind is
outfall returns a view exposing the `Outfall`-only accessors
(`outfall_stage`, `cumulative_inflow`, `outfall_statistics`) in addition to
every base `Node` accessor; lookup of a non-outfall identifier returns a
view exposing none of them; and lookup of a storage-kind identifier returns
a view exposing `storage_statistics` plus every base accessor. -/
theorem claim4_subtype_accessors (e : Engine) (nodeid : String)
    (h1 : e.fileLoaded = true) (h2 : Nodes.contains e nodeid = true) :
    (e.nodeKind nodeid = NodeTypeKind.outfall →
      ∃ nd : NodeView, Nodes.getItem e nodeid = Except.ok nd ∧
        (∀ m ∈ outfallMethodNames, nd.respondsTo m = true) ∧
        (∀ m ∈ baseNodeMethodNames, nd.respondsTo m = true)) ∧
    (e.nodeKind nodeid ≠ NodeTypeKind.outfall →
      ∃ nd : NodeView, Nodes.getItem e nodeid = Except.ok nd ∧
        (∀ m ∈ outfallMethodNames, nd.respondsTo m = false)) ∧
    (e.nodeKind nodeid = NodeTypeKind.storage →
      ∃ nd : NodeView, Nodes.getItem e nodeid = Except.ok nd ∧
        nd.respondsTo "storage_statistics" = true ∧
        (∀ m ∈ baseNodeMethodNames, nd.respondsTo m = true)) := by
  have hm : nodeid ∈ e.nodeIds := by
    simpa [Nodes.contains, Engine.ObjectIDexist] using h2
  have hitem := Nodes.getItem_ok e nodeid h1 hm
  refine ⟨?_, ?_, ?_⟩
  · intro hk
    have hcls : reclassKind e nodeid = NodeViewKind.outfall := by
      simp [reclassKind, hk]
    refine ⟨_, hitem, ?_, ?_⟩
    · rw [hcls]
      intro m hmm
      fin_cases hmm <;> rfl
    · rw [hcls]
      intro m hmm
      fin_cases hmm <;> rfl
  · intro hk
    have hcls : reclassKind e nodeid = NodeViewKind.storage ∨
        reclassKind e nodeid = NodeViewKind.node := by
      by_cases hst : e.nodeKind nodeid = NodeTypeKind.storage
      · exact Or.inl (by simp [reclassKind, hk, hst])
      · exact Or.inr (by simp [reclassKind, hk, hst])
    refine ⟨_, hitem, ?_⟩
    cases hcls with
    | inl hcls =>
      rw [hcls]
      intro m hmm
      fin_cases hmm <;> rfl
    | inr hcls =>
      rw [hcls]
      intro m hmm
      fin_cases hmm <;> rfl
  · intro hk
    have hko : e.nodeKind nodeid ≠ NodeTypeKind.outfall := by
      rw [hk]
      decide
    have hcls : reclassKind e nodeid = NodeViewKind.storage := by
      simp [reclassKind, hk, hko]
    refine ⟨_, hitem, ?_, ?_⟩
    · rw [hcls]
      rfl
    · rw [hcls]
      intro m hmm
      fin_cases hmm <;> rfl

/-- Witness for C4: the outfall `J2`, the junction `J1`, and the storage
node `J3` of the test engine. -/
theorem claim4_witness :
    (∃ nd : NodeView, Nodes.getItem testEngine "J2" = Except.ok nd ∧
      (∀ m ∈ outfallMethodNames, nd.respondsTo m = true) ∧
      (∀ m ∈ baseNodeMethodNames, nd.respondsTo m = true)) ∧
    (∃ nd : NodeView, Nodes.getItem testEngine "J1" = Except.ok nd ∧
      (∀ m ∈ outfallMethodNames, nd.respondsTo m = false)) ∧
    (∃ nd : NodeView, Nodes.getItem testEngine "J3" = Except.ok nd ∧
      nd.respondsTo "storage_statistics" = true ∧
      (∀ m ∈ baseNodeMethodNames, nd.respondsTo m = true)) :=
  ⟨(claim4_subtype_accessors testEngine "J2" rfl (by decide)).1 (by decide),
   (claim4_subtype_accessors testEngine "J1" rfl (by decide)).2.1 (by decide),
   (claim4_subtype_accessors testEngine "J3" rfl (by decide)).2.2 (by decide)⟩

theorem createOpenings_map_seqid :
    ∀ (nds : List NodeView) (e : Engine) (c : Nat),
      (createOpenings e nds c).1.map OpeningView.seqid =
        List.range' c nds.length := by
  intro nds
  induction nds with
  | nil =>
    intro e c
    simp [createOpenings]
  | cons nd rest ih =>
    intro e c
    simp only [createOpenings, Node.create_opening, Opening.init,
      List.map_cons, List.length_cons, List.range']
    exact congrArg (c :: ·) (ih _ _)

/-- C5: opening sequence numbers are drawn from one process-global counter
starting at 0 (`Opening.newid` is the counter's initial value): every
`Opening.__init__` returns the current counter value and advances the
counter by one, so a run of constructions starting at counter value c — on
any nodes whatever — receives exactly the strictly increasing sequence
c, c+1, ..., with no collisions; in particular two openings created on `J1`
followed by one on `J2`, from the initial counter, receive 0, 1, 2. -/
theorem claim5_opening_sequence (e : Engine) (nds : List NodeView)
    (c : Nat) (nd : NodeView) (ot : Nat) (oa ol c1 c2 c3 : Rat) :
    Opening.newid = 0 ∧
    (Opening.init nd c e ot oa ol c1 c2 c3).1.seqid = c ∧
    (Opening.init nd c e ot oa ol c1 c2 c3).2.1 = c + 1 ∧
    (createOpenings e nds c).1.map OpeningView.seqid =
      List.range' c nds.length ∧
    ((createOpenings e nds c).1.map OpeningView.seqid).Pairwise (· < ·) ∧
    (createOpenings testEngine [testJ1, testJ1, testJ2]
        Opening.newid).1.map OpeningView.seqid = [0, 1, 2] := by
  refine ⟨rfl, rfl, rfl, createOpenings_map_seqid nds e c, ?_, ?_⟩
  · rw [createOpenings_map_seqid nds e c]
    exact List.pairwise_lt_range' c nds.length
  · rfl

/-- C6: for every node parameter code (invert elevation, full depth,
surcharge depth, ponding area, surface area, initial depth, coupling area,
overland depth), writing a value through the Python property setter and then
reading the same property returns exactly the written value. -/
theorem claim6_param_roundtrip (e : Engine) (nd : NodeView) (v : Rat) :
    ∀ code : NodeParamCode,
      Node.getParamByCode (Node.setParamByCode e nd v code) nd code = v := by
  intro code
  cases code <;>
    simp [Node.getParamByCode, Node.setParamByCode, Node.invert_elevation,
      Node.set_invert_elevation, Node.full_depth, Node.set_full_depth,
      Node.surcharge_depth, Node.set_surcharge_depth, Node.ponding_area,
      Node.set_ponding_area, Node.surface_area, Node.set_surface_area,
      Node.initial_depth, Node.set_initial_depth, Node.coupling_area,
      Node.set_coupling_area, Node.overland_depth, Node.set_overland_depth,
      Engine.getNodeParam, Engine.setNodeParam]

/-- C7: when no simulation run is active, every result property (total
inflow, outflow, losses, volume, flooding, depth, head, lateral inflow,
coupling inflow) returns the value 0 together with the engine's non-fatal
warning flag; being total functions, the reads never raise. -/
theorem claim7_results_degrade (e : Engine) (nd : NodeView)
    (h : e.simulationActive = false) :
    Node.total_inflow e nd = (0, true) ∧
    Node.total_outflow e nd = (0, true) ∧
    Node.losses e nd = (0, true) ∧
    Node.volume e nd = (0, true) ∧
    Node.flooding e nd = (0, true) ∧
    Node.depth e nd = (0, true) ∧
    Node.head e nd = (0, true) ∧
    Node.lateral_inflow e nd = (0, true) ∧
    Node.coupling_inflow e nd = (0, true) := by
  simp [Node.total_inflow, Node.total_outflow, Node.losses, Node.volume,
    Node.flooding, Node.depth, Node.head, Node.lateral_inflow,
    Node.coupling_inflow, Engine.getNodeResult, h]

/-- Witness for C7: the test engine has no active run, and reading `J1`'s
results returns 0 with the warning flag set. -/
theorem claim7_witness :
    Node.total_inflow testEngine testJ1 = (0, true) ∧
    Node.total_outflow testEngine testJ1 = (0, true) ∧
    Node.losses testEngine testJ1 = (0, true) ∧
    Node.volume testEngine testJ1 = (0, true) ∧
    Node.flooding testEngine testJ1 = (0, true) ∧
    Node.depth testEngine testJ1 = (0, true) ∧
    Node.head testEngine testJ1 = (0, true) ∧
    Node.lateral_inflow testEngine testJ1 = (0, true) ∧
    Node.coupling_inflow testEngine testJ1 = (0, true) :=
  claim7_results_degrade testEngine testJ1 rfl

end PySwmm
